import Mathlib

/-!
Verification of the template-driven presentation-outline generator
(`src/main.py`).  The logical core is three pure functions:

* `TEMPLATES` / `TEMPLATES_get` — the static category → title-list catalog
  and the `TEMPLATES.get(template_type, TEMPLATES["business"])` lookup;
* `generate_detailed_content` — builds the outline: truncates the resolved
  title list to `num_slides` entries and emits one slide per title;
* `generate_slide_details` — the per-title canned-content lookup with a
  generic fallback sentence;
* `export_to_formats` — serializes an outline to a structured record and a
  plain-text rendering.  The Python function receives the slide list by
  reference and contains no statement that mutates it, so the state-passing
  embedding returns the caller's list unchanged as its last component; the
  wall-clock timestamp `datetime.datetime.now().isoformat()` is passed in
  explicitly as the `now` argument.

Strings are Lean `String`s (sequences of Unicode code points, matching
Python's `str`); the slide count is an `Int` because Python's `int` is
unbounded and `range(min(num_slides, len(template)))` is empty for a
negative argument.
-/

/-- A slide record `{"title": ..., "content": ...}`. -/
structure Slide where
  title : String
  content : String
deriving DecidableEq, Repr

/-- The `TEMPLATES["business"]` title list. -/
def business_titles : List String :=
  ["Executive Summary",
   "Problem Statement",
   "Market Analysis",
   "Solution Overview",
   "Business Model",
   "Financial Projections",
   "Implementation Timeline",
   "Team & Resources",
   "Risk Assessment",
   "Call to Action"]

/-- The `TEMPLATES["technical"]` title list. -/
def technical_titles : List String :=
  ["Introduction & Overview",
   "Problem Definition",
   "Technical Requirements",
   "Architecture & Design",
   "Implementation Details",
   "Testing & Validation",
   "Performance Analysis",
   "Security Considerations",
   "Future Enhancements",
   "Conclusion"]

/-- The `TEMPLATES["educational"]` title list. -/
def educational_titles : List String :=
  ["Learning Objectives",
   "Background & Context",
   "Key Concepts",
   "Detailed Explanation",
   "Real-world Examples",
   "Interactive Activity",
   "Assessment & Review",
   "Additional Resources",
   "Q&A Session",
   "Summary & Next Steps"]

/-- The `TEMPLATES["research"]` title list. -/
def research_titles : List String :=
  ["Research Question",
   "Literature Review",
   "Methodology",
   "Data Collection",
   "Results & Analysis",
   "Discussion",
   "Limitations",
   "Implications",
   "Future Research",
   "Conclusions"]

/-- The key set of the `TEMPLATES` dict. -/
def knownCategories : List String :=
  ["business", "technical", "educational", "research"]

/-- The lookup `TEMPLATES.get(template_type, TEMPLATES["business"])` from
`generate_detailed_content`: a dict lookup over the four string keys,
defaulting to the business list. -/
def TEMPLATES_get (template_type : String) : List String :=
  if template_type = "business" then business_titles
  else if template_type = "technical" then technical_titles
  else if template_type = "educational" then educational_titles
  else if template_type = "research" then research_titles
  else business_titles

/-- The keys of the `content_map` dict built in `generate_slide_details`. -/
def cannedTitles : List String :=
  ["Executive Summary",
   "Problem Statement",
   "Market Analysis",
   "Solution Overview",
   "Introduction & Overview",
   "Problem Definition",
   "Learning Objectives",
   "Research Question",
   "Background & Context",
   "Literature Review"]

/-- `generate_slide_details(topic, slide_title, template_type)`: the
`content_map.get(slide_title, fallback)` lookup.  The dict literal has ten
distinct string keys, each mapped to an f-string that interpolates `topic`;
the chained comparison below is the dict lookup key by key.  The
`template_type` parameter is received but never used, exactly as in the
source. -/
def generate_slide_details (topic slide_title template_type : String) : String :=
  if slide_title = "Executive Summary" then
    "Brief overview of " ++ topic ++ " and its key benefits for stakeholders"
  else if slide_title = "Problem Statement" then
    "Current challenges and pain points related to " ++ topic
  else if slide_title = "Market Analysis" then
    "Market size, trends, and opportunities in the " ++ topic ++ " space"
  else if slide_title = "Solution Overview" then
    "How " ++ topic ++ " addresses the identified problems"
  else if slide_title = "Introduction & Overview" then
    "Welcome to our presentation on " ++ topic ++ " - setting the stage"
  else if slide_title = "Problem Definition" then
    "Technical challenges and requirements for " ++ topic
  else if slide_title = "Learning Objectives" then
    "What you will learn about " ++ topic ++ " by the end of this session"
  else if slide_title = "Research Question" then
    "Key research questions driving our study of " ++ topic
  else if slide_title = "Background & Context" then
    "Historical background and current state of " ++ topic
  else if slide_title = "Literature Review" then
    "Previous research and findings related to " ++ topic
  else
    "Detailed information about " ++ slide_title ++ " in the context of " ++ topic

/-- `generate_detailed_content(topic, template_type, num_slides)`: resolve the
title list, then `for i in range(min(num_slides, len(template)))` build the
slide `{"title": f"Slide {i+1}: {slide_title}", "content": ...}`.  Python's
`range` of a negative bound is empty, which `Int.toNat` captures. -/
def generate_detailed_content (topic template_type : String) (num_slides : Int) : List Slide :=
  let template := TEMPLATES_get template_type
  (List.range (min num_slides (template.length : Int)).toNat).map (fun i =>
    let slide_title := template.getD i ""
    let slide_content := generate_slide_details topic slide_title template_type
    { title := "Slide " ++ toString (i + 1) ++ ": " ++ slide_title,
      content := slide_content })

/-- The structured (`json_data`) export record
`{"presentation": {"topic": ..., "created": ..., "slides": ...}}`. -/
structure JsonRecord where
  topic : String
  created : String
  slides : List Slide
deriving DecidableEq, Repr

/-- A string of `n` copies of `c`, Python's `c * n`. -/
def repChar (c : Char) (n : Nat) : String :=
  String.mk (List.replicate n c)

/-- `export_to_formats(slides, topic)`.  `now` stands for the
`datetime.datetime.now().isoformat()` string captured at export time.  The
text rendering mirrors the source's `+=` accumulation as a left fold.  The
final component is the state of the caller's `slides` list after the call:
the body reads the list but never assigns to it, so the state passes through
unchanged. -/
def export_to_formats (slides : List Slide) (topic now : String) :
    JsonRecord × String × List Slide :=
  let json_data : JsonRecord := { topic := topic, created := now, slides := slides }
  let text_content := "PRESENTATION: " ++ topic.toUpper ++ "\n"
  let text_content := text_content ++ repChar '=' 50 ++ "\n\n"
  let text_content := slides.foldl (fun acc slide =>
    acc ++ slide.title ++ "\n"
        ++ repChar '-' slide.title.length ++ "\n"
        ++ slide.content ++ "\n\n") text_content
  (json_data, text_content, slides)

/-- The per-slide block of the text rendering, as §4.3 of the spec words it:
title line, an underline of `-` of the title's length, the content, and a
blank line. -/
def slideBlock (s : Slide) : String :=
  s.title ++ "\n" ++ repChar '-' s.title.length ++ "\n" ++ s.content ++ "\n\n"

/-- Concatenation of the per-slide blocks in order. -/
def concatBlocks : List Slide → String
  | [] => ""
  | s :: rest => slideBlock s ++ concatBlocks rest

/-- The text rendering as the spec describes it: header line with the topic
upper-cased, a line of 50 `=`, a blank line, then the slide blocks. -/
def exportTextSpec (slides : List Slide) (topic : String) : String :=
  "PRESENTATION: " ++ topic.toUpper ++ "\n" ++ repChar '=' 50 ++ "\n\n"
    ++ concatBlocks slides

/-- String append is associative (via the underlying character lists). -/
lemma strAppend_assoc (a b c : String) : a ++ b ++ c = a ++ (b ++ c) :=
  String.ext (by simp [String.data_append, List.append_assoc])

/-- Appending the empty string on the right is the identity. -/
lemma strAppend_empty (a : String) : a ++ "" = a :=
  String.ext (by simp [String.data_append])

/-- The outline's length is the clamp of `num_slides` to the resolved title
list's length. -/
lemma generate_detailed_content_length (topic c : String) (k : Int) :
    (generate_detailed_content topic c k).length
      = (min k ((TEMPLATES_get c).length : Int)).toNat := by
  simp [generate_detailed_content]

/-- C1: for every topic, known category and integer count `k`, the outline
length is `min k (length of the category's title list)` when `k ≥ 0`, and the
outline is empty (with no error) when `k ≤ 0`. -/
theorem outline_length_is_min (topic c : String) (k : Int)
    (hc : c ∈ knownCategories) :
    (0 ≤ k → ((generate_detailed_content topic c k).length : Int)
        = min k ((TEMPLATES_get c).length : Int))
    ∧ (k ≤ 0 → generate_detailed_content topic c k = []) := by
  constructor
  · intro hk
    rw [generate_detailed_content_length]
    rw [Int.toNat_of_nonneg (le_min hk (Int.natCast_nonneg _))]
  · intro hk
    have h0 : (min k ((TEMPLATES_get c).length : Int)).toNat = 0 :=
      Int.toNat_of_nonpos (le_trans (min_le_left _ _) hk)
    simp [generate_detailed_content, h0]

/-- Witness for C1 at `topic = "AI"`, `c = "business"`, `k = 3` and `k = -1`. -/
theorem outline_length_is_min_witness :
    "business" ∈ knownCategories
    ∧ ((generate_detailed_content "AI" "business" 3).length : Int)
        = min 3 ((TEMPLATES_get "business").length : Int)
    ∧ generate_detailed_content "AI" "business" (-1) = [] :=
  ⟨by decide,
   (outline_length_is_min "AI" "business" 3 (by decide)).1 (by decide),
   (outline_length_is_min "AI" "business" (-1) (by decide)).2 (by decide)⟩

/-- C2: in every generated outline, the slide at 0-based index `i` (so 1-based
position `i + 1`, contiguous with no gaps) has title exactly
`"Slide {i+1}: {t}"` where `t` is the `i`-th title of the resolved category's
template title list (and `i` is within that list). -/
theorem slide_title_format (topic c : String) (k : Int) (i : Nat)
    (h : i < (generate_detailed_content topic c k).length) :
    i < (TEMPLATES_get c).length
    ∧ ((generate_detailed_content topic c k).get ⟨i, h⟩).title
        = "Slide " ++ toString (i + 1) ++ ": " ++ (TEMPLATES_get c).getD i "" := by
  have hlen := generate_detailed_content_length topic c k
  have hi : i < (min k ((TEMPLATES_get c).length : Int)).toNat := hlen ▸ h
  have hiL : i < (TEMPLATES_get c).length := by omega
  refine ⟨hiL, ?_⟩
  simp [generate_detailed_content, List.get_eq_getElem]

/-- Witness for C2 at `topic = "AI"`, `c = "business"`, `k = 2`, `i = 1`. -/
theorem slide_title_format_witness :
    1 < (TEMPLATES_get "business").length
    ∧ ((generate_detailed_content "AI" "business" 2).get ⟨1, by decide⟩).title
        = "Slide " ++ toString (1 + 1) ++ ": " ++ (TEMPLATES_get "business").getD 1 "" :=
  slide_title_format "AI" "business" 2 1 (by decide)

/-- C3: for every title not among the canned-content keys, the slide content
is exactly the fallback sentence, for any category. -/
theorem fallback_content (S T c : String) (h : T ∉ cannedTitles) :
    generate_slide_details S T c
      = "Detailed information about " ++ T ++ " in the context of " ++ S := by
  simp only [cannedTitles, List.mem_cons, List.not_mem_nil, or_false, not_or] at h
  obtain ⟨h1, h2, h3, h4, h5, h6, h7, h8, h9, h10⟩ := h
  simp [generate_slide_details, h1, h2, h3, h4, h5, h6, h7, h8, h9, h10]

/-- Witness for C3 at `T = "Random Title"`, `S = "AI"`, `c = "business"`. -/
theorem fallback_content_witness :
    "Random Title" ∉ cannedTitles
    ∧ generate_slide_details "AI" "Random Title" "business"
        = "Detailed information about " ++ "Random Title" ++ " in the context of " ++ "AI" :=
  ⟨by decide, fallback_content "AI" "Random Title" "business" (by decide)⟩

/-- C4: for every title among the canned-content keys, the slide content
contains the topic verbatim as a substring (it splits as `p ++ S ++ q`). -/
theorem canned_contains_topic (S T c : String) (h : T ∈ cannedTitles) :
    ∃ p q : String, generate_slide_details S T c = p ++ S ++ q := by
  simp only [cannedTitles, List.mem_cons, List.not_mem_nil, or_false] at h
  rcases h with rfl | rfl | rfl | rfl | rfl | rfl | rfl | rfl | rfl | rfl
  · exact ⟨"Brief overview of ", " and its key benefits for stakeholders", by
      simp [generate_slide_details]⟩
  · exact ⟨"Current challenges and pain points related to ", "", by
      simp [generate_slide_details, strAppend_empty]⟩
  · exact ⟨"Market size, trends, and opportunities in the ", " space", by
      simp [generate_slide_details]⟩
  · exact ⟨"How ", " addresses the identified problems", by
      simp [generate_slide_details]⟩
  · exact ⟨"Welcome to our presentation on ", " - setting the stage", by
      simp [generate_slide_details]⟩
  · exact ⟨"Technical challenges and requirements for ", "", by
      simp [generate_slide_details, strAppend_empty]⟩
  · exact ⟨"What you will learn about ", " by the end of this session", by
      simp [generate_slide_details]⟩
  · exact ⟨"Key research questions driving our study of ", "", by
      simp [generate_slide_details, strAppend_empty]⟩
  · exact ⟨"Historical background and current state of ", "", by
      simp [generate_slide_details, strAppend_empty]⟩
  · exact ⟨"Previous research and findings related to ", "", by
      simp [generate_slide_details, strAppend_empty]⟩

/-- Witness for C4 at `T = "Executive Summary"`, `S = "MyTopic"`. -/
theorem canned_contains_topic_witness :
    "Executive Summary" ∈ cannedTitles
    ∧ ∃ p q : String,
        generate_slide_details "MyTopic" "Executive Summary" "business"
          = p ++ "MyTopic" ++ q :=
  ⟨by decide, canned_contains_topic "MyTopic" "Executive Summary" "business" (by decide)⟩

/-- C5: for every category string outside the four known keys, template
resolution yields the default (business) title list, and outline generation
completes (no error), producing the same slides as the business category. -/
theorem unknown_category_defaults (topic c : String) (k : Int)
    (h : c ∉ knownCategories) :
    TEMPLATES_get c = business_titles
    ∧ generate_detailed_content topic c k
        = generate_detailed_content topic "business" k := by
  simp only [knownCategories, List.mem_cons, List.not_mem_nil, or_false, not_or] at h
  obtain ⟨h1, h2, h3, h4⟩ := h
  have hT : TEMPLATES_get c = business_titles := by
    simp [TEMPLATES_get, h1, h2, h3, h4]
  have hB : TEMPLATES_get "business" = business_titles := by
    simp [TEMPLATES_get]
  exact ⟨hT, by simp [generate_detailed_content, hT, hB, generate_slide_details]⟩

/-- Witness for C5 at `c = "unknown_category"`, the spec's own example. -/
theorem unknown_category_defaults_witness :
    "unknown_category" ∉ knownCategories
    ∧ TEMPLATES_get "unknown_category" = business_titles
    ∧ generate_detailed_content "Quantum Computing" "unknown_category" 2
        = generate_detailed_content "Quantum Computing" "business" 2 :=
  ⟨by decide, unknown_category_defaults "Quantum Computing" "unknown_category" 2 (by decide)⟩

/-- The `+=` accumulation over the slides equals the initial string followed
by the concatenated per-slide blocks. -/
lemma foldl_slide_blocks (xs : List Slide) : ∀ init : String,
    xs.foldl (fun acc slide =>
      acc ++ slide.title ++ "\n"
          ++ repChar '-' slide.title.length ++ "\n"
          ++ slide.content ++ "\n\n") init
      = init ++ concatBlocks xs := by
  induction xs with
  | nil =>
      intro init
      simp [concatBlocks, strAppend_empty]
  | cons s rest ih =>
      intro init
      simp only [List.foldl_cons, concatBlocks, slideBlock]
      rw [ih]
      simp [strAppend_assoc]

/-- C6: the text output of `export_to_formats` is exactly the header line
`"PRESENTATION: "` with the topic upper-cased, a line of 50 `=` characters, a
blank line, then for each slide in order its title line, a `-` underline of
exactly the title's character length, the content verbatim, and a blank
line. -/
theorem export_text_format (slides : List Slide) (topic now : String) :
    (export_to_formats slides topic now).2.1 = exportTextSpec slides topic := by
  simp only [export_to_formats, exportTextSpec]
  rw [foldl_slide_blocks]

/-- C7: the structured record produced by `export_to_formats` carries the
input outline slide-for-slide in its `slides` field and the input topic in
its `topic` field (the timestamp is not compared). -/
theorem export_record_round_trip (slides : List Slide) (topic now : String) :
    (export_to_formats slides topic now).1.slides = slides
    ∧ (export_to_formats slides topic now).1.topic = topic :=
  ⟨rfl, rfl⟩

/-- C8: the slide-content lookup is keyed by title only; the category
argument never changes the result. -/
theorem slide_details_category_agnostic (S T c1 c2 : String) :
    generate_slide_details S T c1 = generate_slide_details S T c2 :=
  rfl

/-- C9: `generate_detailed_content("Machine Learning", "business", 3)` yields
exactly the three expected titles, and the first slide's content is the
expected canned sentence about Machine Learning. -/
theorem machine_learning_example :
    (generate_detailed_content "Machine Learning" "business" 3).map Slide.title
      = ["Slide 1: Executive Summary",
         "Slide 2: Problem Statement",
         "Slide 3: Market Analysis"]
    ∧ ((generate_detailed_content "Machine Learning" "business" 3).headD
          { title := "", content := "" }).content
      = "Brief overview of Machine Learning and its key benefits for stakeholders" := by
  decide

/-- C10: `export_to_formats` leaves the caller's slide list untouched: in the
state-passing embedding the outgoing list equals the incoming one, so the
length and every slide's title and content are unchanged. -/
theorem export_preserves_slides (slides : List Slide) (topic now : String) :
    (export_to_formats slides topic now).2.2 = slides
    ∧ (export_to_formats slides topic now).2.2.length = slides.length :=
  ⟨rfl, rfl⟩
